import Mathlib

/-!
Verification development for `git-suggest-reviewers` (`src/main.rs`).

The program diffs the merge base of two revisions against the compare
revision, filters the resulting per-file deltas, blames the old side of each
eligible file, tallies one count per blamed line under the `(name?, email?)`
author key, and prints the tallies sorted by count descending.

The embedding below mirrors the delta-processing loop of `main`
(`src/main.rs` lines 85-174) and the reporting code (lines 264-277).
Each loop iteration is modelled as an `Item`: the outcome of
`Patch::from_diff` together with the backend's responses for the blame call
and the per-hunk `patch.hunk(i)` calls.  Observable effects (log lines,
blame invocations, map updates, stdout, exit code) are made explicit.
-/

namespace GSR

/-- Opaque commit identifier (`git2::Oid`). -/
abbrev Oid := Nat

/-- `git2::FileMode` variants. -/
inductive FileMode where
  | unreadable
  | tree
  | blob
  | blobGroupWritable
  | blobExecutable
  | link
  | commit
deriving DecidableEq

/-- One side of a diff delta (`git2::DiffFile`): `exists()` (here `present`),
`mode()`, `is_binary()`, `size()`, `path()`. -/
structure FileSide where
  present : Bool
  mode : FileMode
  isBinary : Bool
  size : Nat
  path : String
deriving DecidableEq

/-- A per-file delta (`git2::DiffDelta`): old and new side descriptors. -/
structure Delta where
  oldFile : FileSide
  newFile : FileSide
deriving DecidableEq

/-- A diff hunk (`git2::DiffHunk`): `old_start()`, `old_lines()`,
`new_start()`, `new_lines()`. -/
structure Hunk where
  oldStart : Nat
  oldLines : Nat
  newStart : Nat
  newLines : Nat
deriving DecidableEq

/-- An author signature as surfaced by `BlameHunk::final_signature()`:
`name()` and `email()` both return `Option` (absent when missing or not
valid UTF-8). -/
structure Sig where
  name : Option String
  email : Option String
deriving DecidableEq

/-- The aggregation key used by `main`:
`(sign.name().map(String::from), sign.email().map(String::from))`. -/
abbrev Author := Option String × Option String

/-- A blame result, as consumed through `Blame::get_line(line)`:
a partial map from old-side line numbers to final signatures. -/
abbrev BlameFn := Nat → Option Sig

/-- One iteration of the delta loop:
the outcome of `Patch::from_diff(&diff, deltaidx)`, and, when a patch is
present, the hunks as returned by `patch.hunk(i)` (each retrieval may fail)
and the backend's response to the single `repo.blame_file` call. -/
inductive Item where
  | err (e : String)
  | noPatch
  | patch (delta : Delta) (hunks : List (Except String Hunk))
      (blameResp : Except String BlameFn)

/-- Log levels used by the source (`debug!`, `info!`, `warn!`). -/
inductive Level where
  | debug
  | info
  | warn
deriving DecidableEq

/-- The log lines emitted inside the delta loop, one constructor per
`debug!`/`info!`/`warn!` call site in `main.rs` lines 92-173. -/
inductive LogEvent where
  | infoFromTo (oldPath newPath : String)
  | skipNotBlob (path : String)
  | skipBinary (path : String)
  | skipTooLarge (path : String) (size : Nat)
  | skipCreatedOrDeleted (path : String)
  | debugBlaming (path : String)
  | debugDoneBlaming
  | debugHunk (h : Hunk)
  | debugLineNotFound (line : Nat) (path : String)
  | debugBlameError (path : String) (e : String)
  | warnPatchError (e : String)
deriving DecidableEq

/-- The level each log line is emitted at in the source. -/
def eventLevel : LogEvent → Level
  | .infoFromTo _ _ => .info
  | .skipNotBlob _ => .debug
  | .skipBinary _ => .debug
  | .skipTooLarge _ _ => .debug
  | .skipCreatedOrDeleted _ => .debug
  | .debugBlaming _ => .debug
  | .debugDoneBlaming => .debug
  | .debugHunk _ => .debug
  | .debugLineNotFound _ _ => .debug
  | .debugBlameError _ _ => .debug
  | .warnPatchError _ => .warn

/-- The possible outcomes of the skip chain. The source has a single
combined created-or-deleted decision (`!old.exists() || !new.exists()`),
not separate created/deleted ones. -/
inductive FilterDecision where
  | process
  | skipNotBlob
  | skipBinary
  | skipTooLarge
  | skipCreatedOrDeleted
deriving DecidableEq

/-- The `if`/`else if` chain of `main.rs` lines 100-118, in source order:
not-a-blob, binary, too large, created-or-deleted. -/
def fileFilter (maxBlameSize : Nat) (d : Delta) : FilterDecision :=
  if d.oldFile.mode ≠ FileMode.blob ∨ d.newFile.mode ≠ FileMode.blob then
    .skipNotBlob
  else if d.oldFile.isBinary = true ∨ d.newFile.isBinary = true then
    .skipBinary
  else if d.oldFile.size > maxBlameSize ∨ d.newFile.size > maxBlameSize then
    .skipTooLarge
  else if d.oldFile.present = false ∨ d.newFile.present = false then
    .skipCreatedOrDeleted
  else
    .process

/-- The parameters of one `repo.blame_file(path, options)` call.
`BlameOptions` fields the source never sets (`min_line`, `max_line`,
`oldest_commit`) are recorded as `none`. -/
structure BlameRequest where
  path : String
  newestCommit : Oid
  useMailmap : Bool
  oldestCommit : Option Oid
  minLine : Option Nat
  maxLine : Option Nat
deriving DecidableEq

/-- The blame request built at `main.rs` lines 122-129:
`BlameOptions::new().newest_commit(merge_base).use_mailmap(true)`. -/
def blameRequestFor (mergeBase : Oid) (path : String) : BlameRequest :=
  { path := path
    newestCommit := mergeBase
    useMailmap := true
    oldestCommit := none
    minLine := none
    maxLine := none }

/-- The iteration range `hunk.old_start()..(hunk.old_start()+hunk.old_lines())`
of `main.rs` line 136. -/
def hunkLines (h : Hunk) : List Nat :=
  (List.range h.oldLines).map (fun i => h.oldStart + i)

/-- The per-line body of `main.rs` lines 138-156: look the line up in the
blame result; on a hit record the `(name?, email?)` author, on a miss emit
the debug log line.  Returns (log lines, recorded authors). -/
def processLines (blame : BlameFn) (path : String) :
    List Nat → List LogEvent × List Author
  | [] => ([], [])
  | l :: rest =>
    match blame l with
    | some sign =>
      ((processLines blame path rest).1,
        (sign.name, sign.email) :: (processLines blame path rest).2)
    | none =>
      (LogEvent.debugLineNotFound l path :: (processLines blame path rest).1,
        (processLines blame path rest).2)

/-- The hunk loop of `main.rs` lines 133-161.  `patch.hunk(hunkidx)?` failing
propagates the error out of `main` (the `?` operator), so a failed retrieval
stops the loop and is recorded as a fatal error in the third component. -/
def processHunks (blame : BlameFn) (path : String) :
    List (Except String Hunk) → List LogEvent × List Author × Option String
  | [] => ([], [], none)
  | Except.error e :: _ => ([], [], some e)
  | Except.ok h :: rest =>
    (LogEvent.debugHunk h ::
        ((processLines blame path (hunkLines h)).1 ++ (processHunks blame path rest).1),
      (processLines blame path (hunkLines h)).2 ++ (processHunks blame path rest).2.1,
      (processHunks blame path rest).2.2)

/-- The observable effects of one delta-loop iteration: log lines, blame
invocations, author keys added to the map, and a fatal error when the
iteration aborted `main` through `?`. -/
structure ItemResult where
  log : List LogEvent
  requests : List BlameRequest
  authors : List Author
  fatal : Option String
deriving DecidableEq

/-- One iteration of the delta loop (`main.rs` lines 92-173):
a patch error is a `warn!` only; a missing patch does nothing; otherwise the
skip chain runs, and for a processed file the single blame call is issued,
a blame failure being `debug!`-logged and contributing nothing. -/
def processItem (maxBlameSize : Nat) (mergeBase : Oid) : Item → ItemResult
  | Item.err e => ⟨[LogEvent.warnPatchError e], [], [], none⟩
  | Item.noPatch => ⟨[], [], [], none⟩
  | Item.patch delta hunks blameResp =>
    let p := delta.oldFile.path
    let infoEv := LogEvent.infoFromTo delta.oldFile.path delta.newFile.path
    match fileFilter maxBlameSize delta with
    | FilterDecision.skipNotBlob => ⟨[infoEv, LogEvent.skipNotBlob p], [], [], none⟩
    | FilterDecision.skipBinary => ⟨[infoEv, LogEvent.skipBinary p], [], [], none⟩
    | FilterDecision.skipTooLarge =>
      ⟨[infoEv, LogEvent.skipTooLarge p (max delta.oldFile.size delta.newFile.size)],
        [], [], none⟩
    | FilterDecision.skipCreatedOrDeleted =>
      ⟨[infoEv, LogEvent.skipCreatedOrDeleted p], [], [], none⟩
    | FilterDecision.process =>
      let req := blameRequestFor mergeBase p
      match blameResp with
      | Except.error e =>
        ⟨[infoEv, LogEvent.debugBlaming p, LogEvent.debugBlameError p e], [req], [], none⟩
      | Except.ok blame =>
        let hr := processHunks blame p hunks
        ⟨[infoEv, LogEvent.debugBlaming p, LogEvent.debugDoneBlaming] ++ hr.1,
          [req], hr.2.1, hr.2.2⟩

/-- The whole delta loop: items are processed in order until one aborts
`main` (a hunk-retrieval failure); effects accumulate in order. -/
def runItems (maxBlameSize : Nat) (mergeBase : Oid) : List Item → ItemResult
  | [] => ⟨[], [], [], none⟩
  | i :: rest =>
    match (processItem maxBlameSize mergeBase i).fatal with
    | some e =>
      ⟨(processItem maxBlameSize mergeBase i).log,
        (processItem maxBlameSize mergeBase i).requests,
        (processItem maxBlameSize mergeBase i).authors, some e⟩
    | none =>
      ⟨(processItem maxBlameSize mergeBase i).log ++ (runItems maxBlameSize mergeBase rest).log,
        (processItem maxBlameSize mergeBase i).requests
          ++ (runItems maxBlameSize mergeBase rest).requests,
        (processItem maxBlameSize mergeBase i).authors
          ++ (runItems maxBlameSize mergeBase rest).authors,
        (runItems maxBlameSize mergeBase rest).fatal⟩

/-- `modified.entry(author).and_modify(|e| *e += 1).or_insert(1)`
(`main.rs` line 144) on an association-list view of the `HashMap`. -/
def bump : List (Author × Nat) → Author → List (Author × Nat)
  | [], a => [(a, 1)]
  | p :: rest, a =>
    if p.1 = a then (p.1, p.2 + 1) :: rest else p :: bump rest a

/-- The map built by feeding every recorded author key through `bump`. -/
def buildMap (authors : List Author) : List (Author × Nat) :=
  authors.foldl bump []

/-- Reading a key's count out of the association-list map (0 when absent). -/
def lookupCount : List (Author × Nat) → Author → Nat
  | [], _ => 0
  | p :: rest, a => if p.1 = a then p.2 else lookupCount rest a

/-- The comparator of `main.rs` line 267:
`sort_unstable_by(|a, b| b.1.cmp(&a.1))`, i.e. count descending. -/
def countGE (a b : Author × Nat) : Prop := b.2 ≤ a.2

instance : DecidableRel countGE := fun a b => Nat.decLe b.2 a.2

instance : IsTotal (Author × Nat) countGE := ⟨fun a b => Nat.le_total b.2 a.2⟩

instance : IsTrans (Author × Nat) countGE :=
  ⟨fun _ _ _ hab hbc => Nat.le_trans hbc hab⟩

/-- The sorted entry list (`modified_sorted` in `main.rs` lines 265-267).
The source's sort is unstable; tie order is unspecified, so any sort by
count descending refines it. -/
def sortDesc (m : List (Author × Nat)) : List (Author × Nat) :=
  m.insertionSort countGE

/-- One stdout line (`main.rs` lines 270-275):
`println!("{}\t{} ({})", lines, name.unwrap_or("?"), email.unwrap_or("?"))`. -/
def formatLine (entry : Author × Nat) : String :=
  toString entry.2 ++ "\t" ++ entry.1.1.getD "?" ++ " (" ++ entry.1.2.getD "?" ++ ")"

/-- The stdout of a successful run: the sorted entries, formatted. -/
def report (m : List (Author × Nat)) : List String :=
  (sortDesc m).map formatLine

/-- The observable outcome of a run of the delta loop plus reporting:
log, blame invocations, final map, stdout lines, and process exit code
(`main` returning `Err` exits non-zero and prints nothing). -/
structure RunOutput where
  log : List LogEvent
  requests : List BlameRequest
  map : List (Author × Nat)
  stdout : List String
  exitCode : Nat

/-- The run from the top of the delta loop to process exit
(`main.rs` lines 85-277). -/
def run (maxBlameSize : Nat) (mergeBase : Oid) (items : List Item) : RunOutput :=
  let r := runItems maxBlameSize mergeBase items
  let m := buildMap r.authors
  { log := r.log
    requests := r.requests
    map := m
    stdout := if r.fatal = none then report m else []
    exitCode := if r.fatal = none then 0 else 1 }

/-- The CLI surface (`struct Opt`, `main.rs` lines 15-31): positional
`base` and `compare`, `--max-blame-size` (default 1073741824), `--verbose`,
`--no-progress`.  There is no stop-at / stop-boundary option. -/
structure Opt where
  base : String
  compare : String
  maxBlameSize : Nat
  verbose : Bool
  noProgress : Bool
deriving DecidableEq

/-- A concrete eligible delta, used by witnesses and counterexamples. -/
def cDelta : Delta :=
  { oldFile := { present := true, mode := FileMode.blob, isBinary := false,
                 size := 10, path := "w.rs" },
    newFile := { present := true, mode := FileMode.blob, isBinary := false,
                 size := 12, path := "w.rs" } }

/-- A concrete blame result, used by witnesses and counterexamples:
line 1 is covered by a fully-known signature, every other line is
uncovered. -/
def cBlame : BlameFn := fun l =>
  if l = 1 then some { name := some "ann", email := some "ann@example.com" } else none

/-! Section: Lemmas about the per-line and per-hunk loops -/

theorem processLines_authors (blame : BlameFn) (path : String) :
    ∀ lines : List Nat,
      (processLines blame path lines).2
        = lines.filterMap (fun l => (blame l).map (fun s => (s.name, s.email)))
  | [] => rfl
  | l :: rest => by
    cases h : blame l <;>
      simp [processLines, h, processLines_authors blame path rest]

theorem processLines_logs_debug (blame : BlameFn) (path : String) :
    ∀ lines : List Nat, ∀ ev ∈ (processLines blame path lines).1,
      eventLevel ev = Level.debug := by
  intro lines
  induction lines with
  | nil => simp [processLines]
  | cons l rest ih =>
    cases h : blame l with
    | some s => simpa only [processLines, h] using ih
    | none =>
      simp only [processLines, h, List.forall_mem_cons]
      exact ⟨rfl, ih⟩

theorem processLines_log_mem (blame : BlameFn) (path : String)
    {lines : List Nat} {l : Nat} (hmem : l ∈ lines) (hnone : blame l = none) :
    LogEvent.debugLineNotFound l path ∈ (processLines blame path lines).1 := by
  induction lines with
  | nil => cases hmem
  | cons x rest ih =>
    rcases List.mem_cons.mp hmem with rfl | hx
    · simp [processLines, hnone]
    · cases h : blame x with
      | some s =>
        simp only [processLines, h]
        exact ih hx
      | none =>
        simp only [processLines, h]
        exact List.mem_cons_of_mem _ (ih hx)

theorem processHunks_fatal_of_error (blame : BlameFn) (path : String) (e : String) :
    ∀ (hs : List Hunk) (rest : List (Except String Hunk)),
      (processHunks blame path (hs.map Except.ok ++ Except.error e :: rest)).2.2 = some e
  | [], rest => rfl
  | h :: hs, rest => by
    simpa [processHunks] using processHunks_fatal_of_error blame path e hs rest

/-! Section: Lemmas about the delta loop -/

theorem runItems_cons_of_fatal_some (maxS : Nat) (mb : Oid) (i : Item)
    (rest : List Item) (e : String) (h : (processItem maxS mb i).fatal = some e) :
    runItems maxS mb (i :: rest)
      = ⟨(processItem maxS mb i).log, (processItem maxS mb i).requests,
          (processItem maxS mb i).authors, some e⟩ := by
  simp [runItems, h]

theorem runItems_cons_of_fatal_none (maxS : Nat) (mb : Oid) (i : Item)
    (rest : List Item) (h : (processItem maxS mb i).fatal = none) :
    runItems maxS mb (i :: rest)
      = ⟨(processItem maxS mb i).log ++ (runItems maxS mb rest).log,
          (processItem maxS mb i).requests ++ (runItems maxS mb rest).requests,
          (processItem maxS mb i).authors ++ (runItems maxS mb rest).authors,
          (runItems maxS mb rest).fatal⟩ := by
  simp [runItems, h]

theorem runItems_append (maxS : Nat) (mb : Oid) :
    ∀ (xs ys : List Item), (runItems maxS mb xs).fatal = none →
      runItems maxS mb (xs ++ ys)
        = ⟨(runItems maxS mb xs).log ++ (runItems maxS mb ys).log,
            (runItems maxS mb xs).requests ++ (runItems maxS mb ys).requests,
            (runItems maxS mb xs).authors ++ (runItems maxS mb ys).authors,
            (runItems maxS mb ys).fatal⟩
  | [], ys, _ => by simp [runItems]
  | i :: xs, ys, h => by
    cases hf : (processItem maxS mb i).fatal with
    | some e =>
      rw [runItems_cons_of_fatal_some maxS mb i xs e hf] at h
      cases h
    | none =>
      rw [runItems_cons_of_fatal_none maxS mb i xs hf] at h
      simp only at h
      rw [List.cons_append, runItems_cons_of_fatal_none maxS mb i (xs ++ ys) hf,
        runItems_append maxS mb xs ys h, runItems_cons_of_fatal_none maxS mb i xs hf]
      simp [List.append_assoc]

theorem runItems_fatal_none_iff (maxS : Nat) (mb : Oid) :
    ∀ items : List Item, ((runItems maxS mb items).fatal = none ↔
      ∀ i ∈ items, (processItem maxS mb i).fatal = none)
  | [] => by simp [runItems]
  | i :: rest => by
    cases hf : (processItem maxS mb i).fatal with
    | some e => simp [runItems, hf, List.forall_mem_cons]
    | none =>
      simp [runItems, hf, List.forall_mem_cons,
        runItems_fatal_none_iff maxS mb rest]

theorem runItems_authors_flatten (maxS : Nat) (mb : Oid) :
    ∀ items : List Item, (runItems maxS mb items).fatal = none →
      (runItems maxS mb items).authors
        = (items.map (fun i => (processItem maxS mb i).authors)).flatten
  | [], _ => by simp [runItems]
  | i :: rest, h => by
    cases hf : (processItem maxS mb i).fatal with
    | some e =>
      rw [runItems_cons_of_fatal_some maxS mb i rest e hf] at h
      cases h
    | none =>
      rw [runItems_cons_of_fatal_none maxS mb i rest hf] at h
      simp only at h
      rw [runItems_cons_of_fatal_none maxS mb i rest hf]
      simp [runItems_authors_flatten maxS mb rest h]

/-! Section: Lemmas about the aggregation map -/

theorem lookupCount_bump : ∀ (m : List (Author × Nat)) (a b : Author),
    lookupCount (bump m a) b = lookupCount m b + (if b = a then 1 else 0)
  | [], a, b => by
    by_cases hab : a = b
    · subst hab
      simp [bump, lookupCount]
    · simp [bump, lookupCount, hab, Ne.symm hab]
  | p :: rest, a, b => by
    by_cases hpa : p.1 = a
    · by_cases hba : b = a
      · subst hba
        simp [bump, lookupCount, hpa]
      · have hpb : ¬ p.1 = b := fun hh => hba (hh.symm.trans hpa)
        simp [bump, lookupCount, hpa, hpb, hba, Ne.symm hba]
    · by_cases hpb : p.1 = b
      · have hba : ¬ b = a := fun hh => hpa (hpb.trans hh)
        simp [bump, lookupCount, hpa, hpb, hba]
      · simp [bump, lookupCount, hpa, hpb, lookupCount_bump rest a b]

theorem lookupCount_foldl : ∀ (keys : List Author) (m : List (Author × Nat)) (b : Author),
    lookupCount (keys.foldl bump m) b = lookupCount m b + keys.count b
  | [], m, b => by simp
  | a :: keys, m, b => by
    rw [List.foldl_cons, lookupCount_foldl keys (bump m a) b, lookupCount_bump]
    by_cases hab : b = a
    · subst hab
      simp [List.count_cons_self]
      omega
    · rw [List.count_cons_of_ne hab]
      simp [hab]

theorem lookupCount_buildMap (keys : List Author) (b : Author) :
    lookupCount (buildMap keys) b = keys.count b := by
  simpa [lookupCount] using lookupCount_foldl keys [] b

theorem mem_bump_keys : ∀ (m : List (Author × Nat)) (a b : Author),
    (b ∈ (bump m a).map Prod.fst ↔ b ∈ m.map Prod.fst ∨ b = a)
  | [], a, b => by simp [bump]
  | p :: rest, a, b => by
    by_cases hpa : p.1 = a
    · subst hpa
      simp [bump]
      tauto
    · simp [bump, hpa, mem_bump_keys rest a b]
      tauto

theorem bump_keys_nodup : ∀ (m : List (Author × Nat)) (a : Author),
    (m.map Prod.fst).Nodup → ((bump m a).map Prod.fst).Nodup
  | [], a, _ => by simp [bump]
  | p :: rest, a, h => by
    rw [List.map_cons, List.nodup_cons] at h
    by_cases hpa : p.1 = a
    · rw [show bump (p :: rest) a = (p.1, p.2 + 1) :: rest from by simp [bump, hpa]]
      rw [List.map_cons, List.nodup_cons]
      exact h
    · rw [show bump (p :: rest) a = p :: bump rest a from by simp [bump, hpa]]
      rw [List.map_cons, List.nodup_cons]
      refine ⟨fun hc => ?_, bump_keys_nodup rest a h.2⟩
      rcases (mem_bump_keys rest a p.1).mp hc with hm | he
      · exact h.1 hm
      · exact hpa he

theorem foldl_bump_keys_nodup : ∀ (keys : List Author) (m : List (Author × Nat)),
    (m.map Prod.fst).Nodup → ((keys.foldl bump m).map Prod.fst).Nodup
  | [], _, h => h
  | a :: keys, m, h => foldl_bump_keys_nodup keys (bump m a) (bump_keys_nodup m a h)

theorem buildMap_keys_nodup (keys : List Author) :
    ((buildMap keys).map Prod.fst).Nodup :=
  foldl_bump_keys_nodup keys [] (by simp)

theorem count_flatten_eq_sum (key : Author) :
    ∀ L : List (List Author), L.flatten.count key = (L.map (fun l => l.count key)).sum
  | [] => by simp
  | l :: L => by simp [List.count_append, count_flatten_eq_sum key L]

/-! Section: Lemmas about the whole run -/

theorem run_log (maxS : Nat) (mb : Oid) (items : List Item) :
    (run maxS mb items).log = (runItems maxS mb items).log := rfl

theorem run_map (maxS : Nat) (mb : Oid) (items : List Item) :
    (run maxS mb items).map = buildMap (runItems maxS mb items).authors := rfl

/-! Section: Eligibility -/

theorem fileFilter_process_of (maxS : Nat) (d : Delta)
    (h1 : d.oldFile.mode = FileMode.blob) (h2 : d.newFile.mode = FileMode.blob)
    (h3 : d.oldFile.isBinary = false) (h4 : d.newFile.isBinary = false)
    (h5 : d.oldFile.size ≤ maxS) (h6 : d.newFile.size ≤ maxS)
    (h7 : d.oldFile.present = true) (h8 : d.newFile.present = true) :
    fileFilter maxS d = FilterDecision.process := by
  have hs : ¬ (d.oldFile.size > maxS ∨ d.newFile.size > maxS) := by omega
  simp [fileFilter, h1, h2, h3, h4, h7, h8, hs]

/-! Section: Claim C1: the skip-decision order -/

/-- Claim C1 (counterexample).  The claim says a delta whose new side does not
exist and which is flagged binary is reported as the deleted skip, not the
binary skip.  On the source's chain (`main.rs` lines 100-118) the binary
check precedes the existence check, so such a delta is reported as
`skipBinary`, which differs from the (combined) created-or-deleted
decision. -/
theorem c1_counterexample :
    fileFilter 1073741824
      { oldFile := { present := true, mode := FileMode.blob, isBinary := true,
                     size := 10, path := "img.bin" },
        newFile := { present := false, mode := FileMode.blob, isBinary := true,
                     size := 0, path := "img.bin" } }
      = FilterDecision.skipBinary ∧
    FilterDecision.skipBinary ≠ FilterDecision.skipCreatedOrDeleted := by
  exact ⟨by decide, by decide⟩

/-- Claim C1 (amended).  The File Filter evaluates its skip decisions in the
source's priority order skipNotBlob, skipBinary, skipTooLarge,
skipCreatedOrDeleted — creation and deletion share one decision, checked
last; in particular a delta whose new side does not exist and which is
flagged binary is reported as skipBinary.  Each decision holds exactly when
its condition holds and every earlier condition fails. -/
theorem c1_filter_order (maxS : Nat) (d : Delta) :
    (fileFilter maxS d = FilterDecision.skipNotBlob ↔
      (d.oldFile.mode ≠ FileMode.blob ∨ d.newFile.mode ≠ FileMode.blob)) ∧
    (fileFilter maxS d = FilterDecision.skipBinary ↔
      (d.oldFile.mode = FileMode.blob ∧ d.newFile.mode = FileMode.blob) ∧
      (d.oldFile.isBinary = true ∨ d.newFile.isBinary = true)) ∧
    (fileFilter maxS d = FilterDecision.skipTooLarge ↔
      (d.oldFile.mode = FileMode.blob ∧ d.newFile.mode = FileMode.blob) ∧
      (d.oldFile.isBinary = false ∧ d.newFile.isBinary = false) ∧
      (d.oldFile.size > maxS ∨ d.newFile.size > maxS)) ∧
    (fileFilter maxS d = FilterDecision.skipCreatedOrDeleted ↔
      (d.oldFile.mode = FileMode.blob ∧ d.newFile.mode = FileMode.blob) ∧
      (d.oldFile.isBinary = false ∧ d.newFile.isBinary = false) ∧
      (d.oldFile.size ≤ maxS ∧ d.newFile.size ≤ maxS) ∧
      (d.oldFile.present = false ∨ d.newFile.present = false)) ∧
    (fileFilter maxS d = FilterDecision.process ↔
      (d.oldFile.mode = FileMode.blob ∧ d.newFile.mode = FileMode.blob) ∧
      (d.oldFile.isBinary = false ∧ d.newFile.isBinary = false) ∧
      (d.oldFile.size ≤ maxS ∧ d.newFile.size ≤ maxS) ∧
      (d.oldFile.present = true ∧ d.newFile.present = true)) := by
  unfold fileFilter
  split_ifs with h1 h2 h3 h4 <;>
    refine ⟨?_, ?_, ?_, ?_, ?_⟩ <;>
    simp_all <;>
    (intros; (try simp_all); (try omega))

/-! Section: Claim C2: blame scoping -/

/-- Claim C2 (counterexample).  For an eligible delta with hunks
`(oldStart 2, oldLines 3)` and `(oldStart 5, oldLines 4)` the claim demands a
blame invocation scoped to `[minLine, maxLine] = [2, 9]`.  The source's
single invocation (`main.rs` lines 122-129) carries no line range (and no
oldest-commit bound): the issued request differs from the scoped one the
claim describes. -/
theorem c2_counterexample :
    (processItem 1073741824 7
        (Item.patch
          { oldFile := { present := true, mode := FileMode.blob, isBinary := false,
                         size := 10, path := "f.rs" },
            newFile := { present := true, mode := FileMode.blob, isBinary := false,
                         size := 12, path := "f.rs" } }
          [Except.ok { oldStart := 2, oldLines := 3, newStart := 2, newLines := 3 },
            Except.ok { oldStart := 5, oldLines := 4, newStart := 5, newLines := 4 }]
          (Except.ok (fun _ => none)))).requests
      = [{ path := "f.rs", newestCommit := 7, useMailmap := true,
           oldestCommit := none, minLine := none, maxLine := none }] ∧
    ({ path := "f.rs", newestCommit := 7, useMailmap := true,
       oldestCommit := none, minLine := none, maxLine := none } : BlameRequest)
      ≠ { path := "f.rs", newestCommit := 7, useMailmap := true,
          oldestCommit := none, minLine := some 2, maxLine := some 9 } := by
  exact ⟨rfl, by decide⟩

/-- Claim C2 (amended).  For every eligible FileDelta (whatever its hunks and
however the backend answers), the single blame invocation is issued on the
old-side path with `newestCommit = mergeBase` and mailmap enabled, and it is
unscoped: it carries no line range and no oldest-commit restriction — the
program has no stop boundary. -/
theorem c2_blame_unscoped (maxS : Nat) (mb : Oid) (delta : Delta)
    (hunks : List (Except String Hunk)) (resp : Except String BlameFn)
    (hElig : fileFilter maxS delta = FilterDecision.process) :
    (processItem maxS mb (Item.patch delta hunks resp)).requests
      = [{ path := delta.oldFile.path, newestCommit := mb, useMailmap := true,
           oldestCommit := none, minLine := none, maxLine := none }] := by
  cases resp <;> simp [processItem, hElig, blameRequestFor]

/-- Claim C2 witness: the amended theorem applied to a concrete eligible
delta. -/
theorem c2_blame_unscoped_witness :
    fileFilter 100 cDelta = FilterDecision.process ∧
    (processItem 100 7 (Item.patch cDelta [] (Except.error "no blame"))).requests
      = [{ path := "w.rs", newestCommit := 7, useMailmap := true,
           oldestCommit := none, minLine := none, maxLine := none }] :=
  ⟨by decide, c2_blame_unscoped 100 7 cDelta [] (Except.error "no blame") (by decide)⟩

/-! Section: Claim C4: exactly one blame invocation per eligible file -/

/-- Claim C4.  For every FileDelta whose old and new sides both exist, are
non-binary, are regular-file blobs, and are within the size ceiling, exactly
one blame invocation is issued for that file — whatever its hunk list and
however the backend answers the call — with `newestCommit = mergeBase` and
mailmap-normalized identities enabled. -/
theorem c4_one_blame_per_file (maxS : Nat) (mb : Oid) (delta : Delta)
    (hunks : List (Except String Hunk)) (resp : Except String BlameFn)
    (hOldPresent : delta.oldFile.present = true) (hNewPresent : delta.newFile.present = true)
    (hOldMode : delta.oldFile.mode = FileMode.blob) (hNewMode : delta.newFile.mode = FileMode.blob)
    (hOldBin : delta.oldFile.isBinary = false) (hNewBin : delta.newFile.isBinary = false)
    (hOldSize : delta.oldFile.size ≤ maxS) (hNewSize : delta.newFile.size ≤ maxS) :
    (processItem maxS mb (Item.patch delta hunks resp)).requests.length = 1 ∧
    (processItem maxS mb (Item.patch delta hunks resp)).requests
      = [blameRequestFor mb delta.oldFile.path] ∧
    (blameRequestFor mb delta.oldFile.path).newestCommit = mb ∧
    (blameRequestFor mb delta.oldFile.path).useMailmap = true := by
  have hElig : fileFilter maxS delta = FilterDecision.process :=
    fileFilter_process_of maxS delta hOldMode hNewMode hOldBin hNewBin
      hOldSize hNewSize hOldPresent hNewPresent
  cases resp <;> simp [processItem, hElig, blameRequestFor]

/-- Claim C4 witness: a concrete eligible delta with two hunks and a
successful blame still issues exactly one request. -/
theorem c4_one_blame_per_file_witness :
    cDelta.oldFile.present = true ∧ cDelta.newFile.present = true ∧
    cDelta.oldFile.mode = FileMode.blob ∧ cDelta.newFile.mode = FileMode.blob ∧
    cDelta.oldFile.isBinary = false ∧ cDelta.newFile.isBinary = false ∧
    cDelta.oldFile.size ≤ 100 ∧ cDelta.newFile.size ≤ 100 ∧
    ((processItem 100 7 (Item.patch cDelta
        [Except.ok { oldStart := 1, oldLines := 2, newStart := 1, newLines := 2 },
          Except.ok { oldStart := 8, oldLines := 1, newStart := 8, newLines := 1 }]
        (Except.ok (fun _ => some { name := some "ann", email := some "a@x" })))).requests.length = 1 ∧
      (processItem 100 7 (Item.patch cDelta
        [Except.ok { oldStart := 1, oldLines := 2, newStart := 1, newLines := 2 },
          Except.ok { oldStart := 8, oldLines := 1, newStart := 8, newLines := 1 }]
        (Except.ok (fun _ => some { name := some "ann", email := some "a@x" })))).requests
        = [blameRequestFor 7 cDelta.oldFile.path] ∧
      (blameRequestFor 7 cDelta.oldFile.path).newestCommit = 7 ∧
      (blameRequestFor 7 cDelta.oldFile.path).useMailmap = true) :=
  ⟨rfl, rfl, rfl, rfl, rfl, rfl, by decide, by decide,
    c4_one_blame_per_file 100 7 cDelta _ _ rfl rfl rfl rfl rfl rfl
      (by decide) (by decide)⟩

/-! Section: Claim C5: blame failure is per-file and non-fatal -/

/-- Claim C5.  When the blame call for an eligible FileDelta fails, the
failure is logged at debug level, the file contributes no author keys to
the map, the surrounding deltas are still processed (the run's recorded
authors are exactly those of the other items), and — provided the rest of
the run is fatal-error-free, as the claim presumes — the process exits with
code zero. -/
theorem c5_blame_failure_nonfatal (maxS : Nat) (mb : Oid) (pre post : List Item)
    (delta : Delta) (hunks : List (Except String Hunk)) (e : String)
    (hElig : fileFilter maxS delta = FilterDecision.process)
    (hpre : (runItems maxS mb pre).fatal = none)
    (hpost : (runItems maxS mb post).fatal = none) :
    (run maxS mb (pre ++ Item.patch delta hunks (Except.error e) :: post)).exitCode = 0 ∧
    (processItem maxS mb (Item.patch delta hunks (Except.error e))).authors = [] ∧
    LogEvent.debugBlameError delta.oldFile.path e
      ∈ (run maxS mb (pre ++ Item.patch delta hunks (Except.error e) :: post)).log ∧
    eventLevel (LogEvent.debugBlameError delta.oldFile.path e) = Level.debug ∧
    (runItems maxS mb (pre ++ Item.patch delta hunks (Except.error e) :: post)).authors
      = (runItems maxS mb pre).authors ++ (runItems maxS mb post).authors := by
  have hitem : processItem maxS mb (Item.patch delta hunks (Except.error e))
      = ⟨[LogEvent.infoFromTo delta.oldFile.path delta.newFile.path,
          LogEvent.debugBlaming delta.oldFile.path,
          LogEvent.debugBlameError delta.oldFile.path e],
          [blameRequestFor mb delta.oldFile.path], [], none⟩ := by
    simp [processItem, hElig]
  have hfat : (processItem maxS mb (Item.patch delta hunks (Except.error e))).fatal = none := by
    rw [hitem]
  have happ := runItems_append maxS mb pre (Item.patch delta hunks (Except.error e) :: post) hpre
  have hcons := runItems_cons_of_fatal_none maxS mb
    (Item.patch delta hunks (Except.error e)) post hfat
  have hwhole : (runItems maxS mb
      (pre ++ Item.patch delta hunks (Except.error e) :: post)).fatal = none := by
    rw [happ]
    simp [hcons, hpost]
  refine ⟨?_, ?_, ?_, rfl, ?_⟩
  · simp [run, hwhole]
  · rw [hitem]
  · rw [run_log, happ]
    simp [hcons, hitem]
  · rw [happ]
    simp [hcons, hitem]

/-- Claim C5 witness: a concrete run with one failing-blame file between no
predecessor and one successor item exits 0 and counts nothing for it. -/
theorem c5_blame_failure_nonfatal_witness :
    fileFilter 100 cDelta = FilterDecision.process ∧
    (runItems 100 7 ([] : List Item)).fatal = none ∧
    (runItems 100 7 [Item.noPatch]).fatal = none ∧
    ((run 100 7 ([] ++ Item.patch cDelta [] (Except.error "boom") :: [Item.noPatch])).exitCode = 0 ∧
      (processItem 100 7 (Item.patch cDelta [] (Except.error "boom"))).authors = [] ∧
      LogEvent.debugBlameError cDelta.oldFile.path "boom"
        ∈ (run 100 7 ([] ++ Item.patch cDelta [] (Except.error "boom") :: [Item.noPatch])).log ∧
      eventLevel (LogEvent.debugBlameError cDelta.oldFile.path "boom") = Level.debug ∧
      (runItems 100 7 ([] ++ Item.patch cDelta [] (Except.error "boom") :: [Item.noPatch])).authors
        = (runItems 100 7 ([] : List Item)).authors ++ (runItems 100 7 [Item.noPatch]).authors) :=
  ⟨by decide, rfl, rfl,
    c5_blame_failure_nonfatal 100 7 [] [Item.noPatch] cDelta [] "boom" (by decide) rfl rfl⟩

/-! Section: Claim C6: empty signatures -/

/-- Claim C6 (counterexample).  A full run in which the single blamed line's
final signature surfaces with neither name nor email: the line is counted
under the (absent, absent) identity, and the log contains no warning-level
line at all — the source (`main.rs` lines 138-144) performs no
detect-and-warn step for invalid/empty signatures. -/
theorem c6_counterexample :
    (run 100 7 [Item.patch cDelta
        [Except.ok { oldStart := 1, oldLines := 1, newStart := 1, newLines := 1 }]
        (Except.ok (fun l =>
          if l = 1 then some { name := none, email := none } else none))]).map
      = [((none, none), 1)] ∧
    ((run 100 7 [Item.patch cDelta
        [Except.ok { oldStart := 1, oldLines := 1, newStart := 1, newLines := 1 }]
        (Except.ok (fun l =>
          if l = 1 then some { name := none, email := none } else none))]).log.countP
      (fun ev => eventLevel ev == Level.warn)) = 0 := by
  exact ⟨rfl, rfl⟩

/-- Claim C6 (amended).  A blamed line whose final signature has neither name
nor email is attributed — without any detection step or warning — to the
identity with both components absent and is counted like any other line;
the line loop only ever emits debug-level log lines. -/
theorem c6_empty_signature_counted (blame : BlameFn) (path : String)
    (lines : List Nat) (l : Nat) (hmem : l ∈ lines)
    (hsig : blame l = some { name := none, email := none }) :
    ((none, none) : Author) ∈ (processLines blame path lines).2 ∧
    (∀ ev ∈ (processLines blame path lines).1, eventLevel ev = Level.debug) := by
  constructor
  · rw [processLines_authors]
    refine List.mem_filterMap.mpr ⟨l, hmem, ?_⟩
    rw [hsig]
    rfl
  · exact processLines_logs_debug blame path lines

/-- Claim C6 witness: the amended theorem applied to a concrete line list and
blame result with an all-absent signature on line 1. -/
theorem c6_empty_signature_counted_witness :
    (1 : Nat) ∈ [1, 2] ∧
    (fun l => if l = 1 then some { name := none, email := none } else none : BlameFn) 1
      = some { name := none, email := none } ∧
    ((none, none) : Author) ∈ (processLines
      (fun l => if l = 1 then some { name := none, email := none } else none) "w.rs" [1, 2]).2 :=
  ⟨by decide, rfl,
    (c6_empty_signature_counted
      (fun l => if l = 1 then some { name := none, email := none } else none)
      "w.rs" [1, 2] 1 (by decide) rfl).1⟩

/-! Section: Claim C7: uncovered lines are skipped -/

/-- Claim C7.  An old-side line in a hunk's range with no entry in the blame
result (the lookup returns `none` rather than failing) is logged at debug
level and excluded from the counts, and the recorded authors are exactly
the lookups of the covered lines — no other line's attribution is
affected. -/
theorem c7_uncovered_line_skipped (blame : BlameFn) (path : String) (h : Hunk)
    (l : Nat) (hmem : l ∈ hunkLines h) (hnone : blame l = none) :
    LogEvent.debugLineNotFound l path ∈ (processLines blame path (hunkLines h)).1 ∧
    eventLevel (LogEvent.debugLineNotFound l path) = Level.debug ∧
    (processLines blame path (hunkLines h)).2
      = (hunkLines h).filterMap (fun n => (blame n).map (fun s => (s.name, s.email))) ∧
    (processLines blame path [l]).2 = [] := by
  refine ⟨processLines_log_mem blame path hmem hnone, rfl,
    processLines_authors blame path _, ?_⟩
  simp [processLines, hnone]

/-- Claim C7 witness: the hunk spanning old lines 1-2 under `cBlame`
(line 2 uncovered). -/
theorem c7_uncovered_line_skipped_witness :
    (2 : Nat) ∈ hunkLines { oldStart := 1, oldLines := 2, newStart := 1, newLines := 2 } ∧
    cBlame 2 = none ∧
    (LogEvent.debugLineNotFound 2 "w.rs"
        ∈ (processLines cBlame "w.rs"
            (hunkLines { oldStart := 1, oldLines := 2, newStart := 1, newLines := 2 })).1 ∧
      eventLevel (LogEvent.debugLineNotFound 2 "w.rs") = Level.debug ∧
      (processLines cBlame "w.rs"
          (hunkLines { oldStart := 1, oldLines := 2, newStart := 1, newLines := 2 })).2
        = (hunkLines { oldStart := 1, oldLines := 2, newStart := 1, newLines := 2 }).filterMap
            (fun n => (cBlame n).map (fun s => (s.name, s.email))) ∧
      (processLines cBlame "w.rs" [2]).2 = []) :=
  ⟨by decide, by decide,
    c7_uncovered_line_skipped cBlame "w.rs"
      { oldStart := 1, oldLines := 2, newStart := 1, newLines := 2 } 2 (by decide) (by decide)⟩

/-! Section: Claim C8: order-independent reduction -/

/-- Claim C8.  Aggregation is order-independent: processing the items in any
permutation yields the same final AttributionMap as a key-to-count
function, every key's total is the arithmetic sum of the per-item counts
for that key, and two author keys are equal iff both the name and the email
components are equal (an absent component comparing equal to absent). -/
theorem c8_reduction_order_independent (maxS : Nat) (mb : Oid)
    (items₁ items₂ : List Item) (hperm : List.Perm items₁ items₂)
    (hok : (runItems maxS mb items₁).fatal = none) (key : Author) :
    lookupCount (run maxS mb items₁).map key
      = lookupCount (run maxS mb items₂).map key ∧
    lookupCount (run maxS mb items₁).map key
      = (items₁.map (fun i => ((processItem maxS mb i).authors).count key)).sum ∧
    (∀ n₁ e₁ n₂ e₂ : Option String,
      ((n₁, e₁) : Author) = (n₂, e₂) ↔ n₁ = n₂ ∧ e₁ = e₂) := by
  have hok₂ : (runItems maxS mb items₂).fatal = none := by
    rw [runItems_fatal_none_iff] at hok ⊢
    intro i hi
    exact hok i (hperm.mem_iff.mpr hi)
  have hcount : ∀ (items : List Item), (runItems maxS mb items).fatal = none →
      lookupCount (run maxS mb items).map key
        = (items.map (fun i => ((processItem maxS mb i).authors).count key)).sum := by
    intro items hfat
    rw [run_map, lookupCount_buildMap, runItems_authors_flatten maxS mb items hfat,
      count_flatten_eq_sum, List.map_map]
    rfl
  refine ⟨?_, hcount items₁ hok, by simp⟩
  rw [hcount items₁ hok, hcount items₂ hok₂]
  exact (hperm.map (fun i => ((processItem maxS mb i).authors).count key)).sum_eq

/-- Claim C8 witness: swapping two concrete items leaves the count of a
concrete key unchanged and equal to the sum of per-item counts. -/
theorem c8_reduction_order_independent_witness :
    List.Perm [Item.err "x", Item.noPatch] [Item.noPatch, Item.err "x"] ∧
    (runItems 100 7 [Item.err "x", Item.noPatch]).fatal = none ∧
    lookupCount (run 100 7 [Item.err "x", Item.noPatch]).map ((some "n", some "e"))
      = lookupCount (run 100 7 [Item.noPatch, Item.err "x"]).map ((some "n", some "e")) ∧
    lookupCount (run 100 7 [Item.err "x", Item.noPatch]).map ((some "n", some "e"))
      = ([Item.err "x", Item.noPatch].map
          (fun i => ((processItem 100 7 i).authors).count ((some "n", some "e")))).sum :=
  ⟨List.Perm.swap Item.noPatch (Item.err "x") [], rfl,
    (c8_reduction_order_independent 100 7 [Item.err "x", Item.noPatch]
      [Item.noPatch, Item.err "x"] (List.Perm.swap Item.noPatch (Item.err "x") []) rfl
      ((some "n", some "e"))).1,
    (c8_reduction_order_independent 100 7 [Item.err "x", Item.noPatch]
      [Item.noPatch, Item.err "x"] (List.Perm.swap Item.noPatch (Item.err "x") []) rfl
      ((some "n", some "e"))).2.1⟩

/-! Section: Claim C9: the reporter -/

/-- Claim C9.  On a successful run the stdout is one line per entry of the
final map (whose author keys are pairwise distinct), each formatted as
count, tab, name, and the email in parentheses; the emitted entry order is
sorted by count descending (a permutation of the map), and an absent name
or email is rendered as the literal placeholder token `?`. -/
theorem c9_reporter (maxS : Nat) (mb : Oid) (items : List Item)
    (h : (runItems maxS mb items).fatal = none) :
    (run maxS mb items).stdout = (sortDesc (run maxS mb items).map).map formatLine ∧
    List.Perm (sortDesc (run maxS mb items).map) (run maxS mb items).map ∧
    List.Sorted countGE (sortDesc (run maxS mb items).map) ∧
    (run maxS mb items).stdout.length = (run maxS mb items).map.length ∧
    ((run maxS mb items).map.map Prod.fst).Nodup ∧
    (∀ (em : Option String) (c : Nat), formatLine ((none, em), c)
        = toString c ++ "\t" ++ "?" ++ " (" ++ em.getD "?" ++ ")") ∧
    (∀ (nm : Option String) (c : Nat), formatLine ((nm, none), c)
        = toString c ++ "\t" ++ nm.getD "?" ++ " (" ++ "?" ++ ")") := by
  have hst : (run maxS mb items).stdout
      = (sortDesc (run maxS mb items).map).map formatLine := by
    simp [run, h, report]
  refine ⟨hst, List.perm_insertionSort countGE _, List.sorted_insertionSort countGE _,
    ?_, buildMap_keys_nodup _, fun em c => rfl, fun nm c => rfl⟩
  rw [hst, List.length_map]
  exact (List.perm_insertionSort countGE _).length_eq

/-- Claim C9 witness: the reporter facts at a concrete successful run with
one counted author. -/
theorem c9_reporter_witness :
    (runItems 100 7 [Item.patch cDelta
        [Except.ok { oldStart := 1, oldLines := 1, newStart := 1, newLines := 1 }]
        (Except.ok cBlame)]).fatal = none ∧
    (run 100 7 [Item.patch cDelta
        [Except.ok { oldStart := 1, oldLines := 1, newStart := 1, newLines := 1 }]
        (Except.ok cBlame)]).stdout
      = (sortDesc (run 100 7 [Item.patch cDelta
          [Except.ok { oldStart := 1, oldLines := 1, newStart := 1, newLines := 1 }]
          (Except.ok cBlame)]).map).map formatLine ∧
    List.Sorted countGE (sortDesc (run 100 7 [Item.patch cDelta
        [Except.ok { oldStart := 1, oldLines := 1, newStart := 1, newLines := 1 }]
        (Except.ok cBlame)]).map) ∧
    ((run 100 7 [Item.patch cDelta
        [Except.ok { oldStart := 1, oldLines := 1, newStart := 1, newLines := 1 }]
        (Except.ok cBlame)]).map.map Prod.fst).Nodup :=
  ⟨rfl,
    (c9_reporter 100 7 [Item.patch cDelta
      [Except.ok { oldStart := 1, oldLines := 1, newStart := 1, newLines := 1 }]
      (Except.ok cBlame)] rfl).1,
    (c9_reporter 100 7 [Item.patch cDelta
      [Except.ok { oldStart := 1, oldLines := 1, newStart := 1, newLines := 1 }]
      (Except.ok cBlame)] rfl).2.2.1,
    (c9_reporter 100 7 [Item.patch cDelta
      [Except.ok { oldStart := 1, oldLines := 1, newStart := 1, newLines := 1 }]
      (Except.ok cBlame)] rfl).2.2.2.2.1⟩

/-! Section: Claim C10: hunk-retrieval failure is run-fatal -/

/-- Claim C10.  If, for an eligible FileDelta whose blame call succeeded,
retrieving one of the patch's hunks fails, the error aborts the whole run:
the process exits non-zero and prints nothing — unlike a blame failure or a
patch-construction failure, neither of which is fatal. -/
theorem c10_hunk_error_fatal (maxS : Nat) (mb : Oid) (delta : Delta)
    (goodHunks : List Hunk) (e : String) (restHunks : List (Except String Hunk))
    (blame : BlameFn) (pre post : List Item)
    (delta₂ : Delta) (hunks₂ : List (Except String Hunk)) (e₂ e₃ : String)
    (hElig : fileFilter maxS delta = FilterDecision.process)
    (hpre : (runItems maxS mb pre).fatal = none) :
    (run maxS mb (pre ++ Item.patch delta
        (goodHunks.map Except.ok ++ Except.error e :: restHunks)
        (Except.ok blame) :: post)).exitCode = 1 ∧
    (run maxS mb (pre ++ Item.patch delta
        (goodHunks.map Except.ok ++ Except.error e :: restHunks)
        (Except.ok blame) :: post)).stdout = [] ∧
    (processItem maxS mb (Item.patch delta
        (goodHunks.map Except.ok ++ Except.error e :: restHunks)
        (Except.ok blame))).fatal = some e ∧
    (processItem maxS mb (Item.err e₂)).fatal = none ∧
    (processItem maxS mb (Item.patch delta₂ hunks₂ (Except.error e₃))).fatal = none := by
  have hferr := processHunks_fatal_of_error blame delta.oldFile.path e goodHunks restHunks
  have hitem : (processItem maxS mb (Item.patch delta
      (goodHunks.map Except.ok ++ Except.error e :: restHunks)
      (Except.ok blame))).fatal = some e := by
    simp [processItem, hElig, hferr]
  have hwhole : (runItems maxS mb (pre ++ Item.patch delta
      (goodHunks.map Except.ok ++ Except.error e :: restHunks)
      (Except.ok blame) :: post)).fatal = some e := by
    rw [runItems_append maxS mb pre _ hpre]
    simp [runItems_cons_of_fatal_some maxS mb _ post e hitem]
  have hnonfatal : ∀ (d : Delta) (hs : List (Except String Hunk)) (ee : String),
      (processItem maxS mb (Item.patch d hs (Except.error ee))).fatal = none := by
    intro d hs ee
    cases hff : fileFilter maxS d <;> simp [processItem, hff]
  refine ⟨?_, ?_, hitem, rfl, hnonfatal delta₂ hunks₂ e₃⟩
  · simp [run, hwhole]
  · simp [run, hwhole]

/-- Claim C10 witness: a concrete run whose only item fails hunk retrieval
exits 1 and prints nothing, while patch and blame failures are
non-fatal. -/
theorem c10_hunk_error_fatal_witness :
    fileFilter 100 cDelta = FilterDecision.process ∧
    (runItems 100 7 ([] : List Item)).fatal = none ∧
    ((run 100 7 ([] ++ Item.patch cDelta [Except.error "bad hunk"]
        (Except.ok cBlame) :: [])).exitCode = 1 ∧
      (run 100 7 ([] ++ Item.patch cDelta [Except.error "bad hunk"]
        (Except.ok cBlame) :: [])).stdout = [] ∧
      (processItem 100 7 (Item.patch cDelta [Except.error "bad hunk"]
        (Except.ok cBlame))).fatal = some "bad hunk" ∧
      (processItem 100 7 (Item.err "patch failed")).fatal = none ∧
      (processItem 100 7 (Item.patch cDelta [] (Except.error "blame failed"))).fatal = none) :=
  ⟨by decide, rfl,
    c10_hunk_error_fatal 100 7 cDelta [] "bad hunk" [] cBlame [] [] cDelta []
      "patch failed" "blame failed" (by decide) rfl⟩

end GSR
